import Mathlib

set_option maxRecDepth 4000

/-!
Shallow embedding of the `mypypdf` PDF document parser
(`src/mypypdf/_reader.py`, `src/mypypdf/_page.py`, `src/mypypdf/generic.py`)
and proofs of the frozen claims about it.

Modelling conventions:
* Python byte strings are `List Nat` (byte values 0..255); Python text
  strings, which this code base always obtains by latin-1 decoding, are
  `List Nat` of character code points (latin-1 makes the two coincide).
* Python `float` values produced by `float(<decimal literal>)` are modelled
  as exact rationals; no claim under verification compares inexact reals.
* Python exceptions are an explicit error type `PErr` threaded through
  `Except`; the broad `try/except` blocks of the source become local
  `Option`/`Except` handling at exactly the places the source has them.
* Unbounded recursion (the `/Prev` chain, the page-tree walk, nested
  arrays/dictionaries) is given an explicit fuel argument; running out of
  fuel is the error `PErr.fuel`, corresponding to Python's RecursionError
  or to a diverging loop.
-/

namespace MyPdf

/-- Code points of a Lean string literal, used to write Python byte/text
strings of the source as `List Nat`. -/
def pstr (s : String) : List Nat := s.data.map Char.toNat

/-- Slice `data[i : i+k]` for a natural starting index (clamped like Python). -/
def nslice (xs : List Nat) (i k : Nat) : List Nat := (xs.drop i).take k

/-- Python slice-index normalisation: a negative index counts from the end,
and the result is clamped to `[0, len]`. -/
def pyIdx (n : Nat) (a : Int) : Nat := if a < 0 then (a + n).toNat else min a.toNat n

/-- Python slice `data[a:]` with a possibly negative bound. -/
def pySliceFrom (xs : List Nat) (a : Int) : List Nat := xs.drop (pyIdx xs.length a)

/-- Python slice `data[a:b]` with possibly negative bounds. -/
def pySlice (xs : List Nat) (a b : Int) : List Nat :=
  (xs.take (pyIdx xs.length b)).drop (pyIdx xs.length a)

/-- The four whitespace bytes skipped by the object parser (`b" \t\r\n"`). -/
def isWs4 (b : Nat) : Bool := b == 32 || b == 9 || b == 13 || b == 10

/-- The six bytes matched by the regex class `\s` on bytes and stripped by
`bytes.strip()` / split by `bytes.split()`. -/
def isWs6 (b : Nat) : Bool := b == 32 || b == 9 || b == 10 || b == 13 || b == 12 || b == 11

/-- ASCII decimal digit test (`\d` on bytes). -/
def isDigit (b : Nat) : Bool := 48 ≤ b && b ≤ 57

/-- The loop `while idx < len(data) and data[idx:idx+1] in b" \t\r\n": idx += 1`. -/
def skip_ws (data : List Nat) (idx : Nat) : Nat :=
  idx + ((data.drop idx).takeWhile isWs4).length

/-- Value of an ASCII digit string (most significant first). -/
def digitsToNat (ds : List Nat) : Nat := ds.foldl (fun a b => a * 10 + (b - 48)) 0

/-- Python `bytes.find(b, start)`: index of the first occurrence of byte `b`
at position `start` or later, `none` for Python's `-1`. -/
def pyFindAux (b : Nat) : List Nat → Nat → Option Nat
  | [], _ => none
  | x :: xs, i => if x == b then some i else pyFindAux b xs (i + 1)

/-- Python `data.find(bytes([b]), start)` as an `Option`. -/
def pyFind (data : List Nat) (b : Nat) (start : Nat) : Option Nat :=
  pyFindAux b (data.drop start) start

/-- Python `bytes.strip()` (strips the six ASCII whitespace bytes). -/
def pyStrip (xs : List Nat) : List Nat :=
  ((xs.dropWhile isWs6).reverse.dropWhile isWs6).reverse

/-- Accumulator pass for `pySplit`: build the current word in reverse. -/
def pySplitGo : List Nat → List Nat → List (List Nat)
  | [], cur => if cur.isEmpty then [] else [cur.reverse]
  | x :: xs, cur =>
    if isWs6 x then
      if cur.isEmpty then pySplitGo xs [] else cur.reverse :: pySplitGo xs []
    else pySplitGo xs (x :: cur)

/-- Python `bytes.split()` (split on runs of ASCII whitespace, no empties). -/
def pySplit (xs : List Nat) : List (List Nat) := pySplitGo xs []

/-- Python `int()` on a byte/character string: strip whitespace, optional
sign, then at least one digit; `none` models `ValueError`. -/
def pyIntBytes (xs : List Nat) : Option Int :=
  let s := pyStrip xs
  let (neg, t) : Bool × List Nat :=
    match s with
    | 45 :: ds => (true, ds)
    | 43 :: ds => (false, ds)
    | ds => (false, ds)
  if t = [] then none
  else if t.all isDigit then
    some (if neg then -(digitsToNat t : Int) else (digitsToNat t : Int))
  else none

/-- Exceptions of the Python source, plus fuel exhaustion standing for
unbounded recursion (Python RecursionError / divergence). -/
inductive PErr where
  | emptyFile (msg : String)
  | pdfRead (msg : String)
  | typeErr
  | attrErr
  | valueErr
  | idxErr
  | fuel
deriving DecidableEq

/-- The PDF object model of `generic.py`: NullObject, BooleanObject,
NumberObject (int-valued / float-valued), NameObject, StringObject,
HexStringObject, ArrayObject, DictionaryObject, StreamObject (dictionary
entries, raw bytes, memoised decoded bytes) and IndirectObject. -/
inductive PdfValue where
  | null
  | boolean (b : Bool)
  | int (n : Int)
  | real (q : ℚ)
  | name (s : List Nat)
  | string (s : List Nat)
  | hexstring (s : List Nat)
  | arr (xs : List PdfValue)
  | dict (es : List (List Nat × PdfValue))
  | stream (es : List (List Nat × PdfValue)) (raw : List Nat) (decoded : Option (List Nat))
  | ref (n : Int) (g : Int)

/-- Lookup in a Python dict keyed by `NameObject`s: a query with a string
key finds exactly the entry whose name equals it. -/
def dictFind : List (List Nat × PdfValue) → List Nat → Option PdfValue
  | [], _ => none
  | (k', v) :: rest, k => if k' == k then some v else dictFind rest k

/-- Python `d[key] = value`: replace in place if present, else append. -/
def dictSet : List (List Nat × PdfValue) → List Nat → PdfValue → List (List Nat × PdfValue)
  | [], k, v => [(k, v)]
  | (k', v') :: rest, k, v =>
    if k' == k then (k', v) :: rest else (k', v') :: dictSet rest k v

/-- Python `dict.update`: set every entry of the second dict in order. -/
def dictUpdate (d : List (List Nat × PdfValue)) (src : List (List Nat × PdfValue)) :
    List (List Nat × PdfValue) :=
  src.foldl (fun acc e => dictSet acc e.1 e.2) d

/-- Python truthiness of the object-model classes: lists and dicts are
falsy when empty; every other class defines no `__bool__`/`__len__` and is
always truthy (including `NullObject` and `NumberObject(0)`). -/
def truthy : PdfValue → Bool
  | .boolean b => b
  | .arr xs => !xs.isEmpty
  | .dict es => !es.isEmpty
  | .stream es _ _ => !es.isEmpty
  | _ => true

/-- Truthiness of an optional value (`None` is falsy). -/
def otruthy : Option PdfValue → Bool
  | none => false
  | some v => truthy v

/-- Python `obj.get(key)` on a value expected to be dict-like; a non-dict
raises `AttributeError`. -/
def pyGetAttrD (v : PdfValue) (k : List Nat) : Except PErr (Option PdfValue) :=
  match v with
  | .dict es => .ok (dictFind es k)
  | .stream es _ _ => .ok (dictFind es k)
  | _ => .error .attrErr

/-- Python `int(obj)` for object-model values: `NumberObject.__int__`
truncates toward zero; every other class raises `TypeError`. -/
def pyIntObj : PdfValue → Except PErr Int
  | .int n => .ok n
  | .real q => .ok (q.num.tdiv (q.den : Int))
  | _ => .error .typeErr

/-- The idiom `int(x.value if hasattr(x, "value") else x)`: Boolean,
Number and String objects expose `.value`; `int` of a string value parses
it (possibly `ValueError`); otherwise fall back to `int(x)`. -/
def pyIntOfValueAttr : PdfValue → Except PErr Int
  | .boolean b => .ok (if b then 1 else 0)
  | .int n => .ok n
  | .real q => .ok (q.num.tdiv (q.den : Int))
  | .string s => match pyIntBytes s with | some n => .ok n | none => .error .valueErr
  | .hexstring s => match pyIntBytes s with | some n => .ok n | none => .error .valueErr
  | v => pyIntObj v

/-- Matcher for the anchored regex `([+-]?\d+\.?\d*)` at `data[idx:]`:
returns the matched characters and the match length. -/
def match_number (data : List Nat) (idx : Nat) : Option (List Nat × Nat) :=
  let rest := data.drop idx
  let (sign, r1) : List Nat × List Nat :=
    match rest with
    | b :: bs => if b == 43 || b == 45 then ([b], bs) else ([], rest)
    | [] => ([], rest)
  let ds := r1.takeWhile isDigit
  if ds = [] then none
  else
    let r2 := r1.drop ds.length
    match r2 with
    | 46 :: r3 =>
      let ds2 := r3.takeWhile isDigit
      some (sign ++ ds ++ [46] ++ ds2, sign.length + ds.length + 1 + ds2.length)
    | _ => some (sign ++ ds, sign.length + ds.length)

/-- Matcher for the anchored regex `(\d+)\s+(\d+)\s+R` at `data[idx:]`:
returns object number, generation and match length. -/
def match_ref (data : List Nat) (idx : Nat) : Option (Nat × Nat × Nat) :=
  let rest := data.drop idx
  let d1 := rest.takeWhile isDigit
  if d1 = [] then none
  else
    let r1 := rest.drop d1.length
    let w1 := r1.takeWhile isWs6
    if w1 = [] then none
    else
      let r2 := r1.drop w1.length
      let d2 := r2.takeWhile isDigit
      if d2 = [] then none
      else
        let r3 := r2.drop d2.length
        let w2 := r3.takeWhile isWs6
        if w2 = [] then none
        else
          match r3.drop w2.length with
          | 82 :: _ =>
            some (digitsToNat d1, digitsToNat d2,
              d1.length + w1.length + d2.length + w2.length + 1)
          | _ => none

/-- Integer value of a `[+-]?digits` token (`int(num_str)`). -/
def intOfSignDigits : List Nat → Int
  | 45 :: ds => -(digitsToNat ds : Int)
  | 43 :: ds => (digitsToNat ds : Int)
  | ds => (digitsToNat ds : Int)

/-- Exact value of a `[+-]?digits[.digits*]` token (`float(num_str)`,
modelled as the exact decimal rational). -/
def ratOfNumTok (s : List Nat) : ℚ :=
  let (neg, t) : Bool × List Nat :=
    match s with
    | 45 :: ds => (true, ds)
    | 43 :: ds => (false, ds)
    | ds => (false, ds)
  let ip := t.takeWhile isDigit
  let rest := t.drop ip.length
  let fp := match rest with | 46 :: ds => ds | _ => []
  let q : ℚ := (digitsToNat ip : ℚ) + (digitsToNat fp : ℚ) / ((10 : ℚ) ^ fp.length)
  if neg then -q else q

/-- Delimiter set terminating a PDF name: whitespace or `<>[](){}/%`. -/
def isNameDelim (b : Nat) : Bool :=
  b == 32 || b == 9 || b == 13 || b == 10 || b == 60 || b == 62 || b == 91 ||
  b == 93 || b == 40 || b == 41 || b == 123 || b == 125 || b == 47 || b == 37

/-- Loop body of `_parse_literal_string`: tracks nested parenthesis depth
and resolves backslash escapes; a `\8` or `\9` "octal" escape raises
`ValueError` via `int(octal, 8)` exactly as the source does. -/
def pls_loop : Nat → List Nat → Nat → Nat → List Nat → Except PErr (List Nat × Nat)
  | 0, _, idx, _, acc => .ok (acc, idx)
  | fuel + 1, data, idx, depth, acc =>
    if idx < data.length ∧ depth > 0 then
      let c := (data.drop idx).headD 0
      if c == 92 then
        let idx1 := idx + 1
        if idx1 ≥ data.length then .ok (acc, idx1)
        else
          let e := (data.drop idx1).headD 0
          if e == 110 then pls_loop fuel data (idx1 + 1) depth (acc ++ [10])
          else if e == 114 then pls_loop fuel data (idx1 + 1) depth (acc ++ [13])
          else if e == 116 then pls_loop fuel data (idx1 + 1) depth (acc ++ [9])
          else if e == 98 then pls_loop fuel data (idx1 + 1) depth (acc ++ [8])
          else if e == 102 then pls_loop fuel data (idx1 + 1) depth (acc ++ [12])
          else if e == 40 then pls_loop fuel data (idx1 + 1) depth (acc ++ [40])
          else if e == 41 then pls_loop fuel data (idx1 + 1) depth (acc ++ [41])
          else if e == 92 then pls_loop fuel data (idx1 + 1) depth (acc ++ [92])
          else if isDigit e then
            let d2ok := idx1 + 1 < data.length && isDigit ((data.drop (idx1 + 1)).headD 0)
            let (ds, idx2) :=
              if d2ok then
                let d3ok := idx1 + 2 < data.length && isDigit ((data.drop (idx1 + 2)).headD 0)
                if d3ok then
                  ([e, (data.drop (idx1 + 1)).headD 0, (data.drop (idx1 + 2)).headD 0], idx1 + 2)
                else ([e, (data.drop (idx1 + 1)).headD 0], idx1 + 1)
              else ([e], idx1)
            if ds.all (fun d => d ≤ 55) then
              let v := ds.foldl (fun a d => a * 8 + (d - 48)) 0
              pls_loop fuel data (idx2 + 1) depth (acc ++ [v])
            else .error .valueErr
          else pls_loop fuel data (idx1 + 1) depth acc
      else if c == 40 then pls_loop fuel data (idx + 1) (depth + 1) (acc ++ [40])
      else if c == 41 then
        if depth - 1 > 0 then pls_loop fuel data (idx + 1) (depth - 1) (acc ++ [41])
        else pls_loop fuel data (idx + 1) (depth - 1) acc
      else pls_loop fuel data (idx + 1) depth (acc ++ [c])
    else .ok (acc, idx)

/-- The source's `_parse_literal_string(data, idx)` (cursor on `(`). -/
def parse_literal_string (data : List Nat) (idx : Nat) :
    Except PErr (PdfValue × Nat) := do
  let (s, i) ← pls_loop (data.length + 1) data (idx + 1) 1 []
  .ok (.string s, i)

/-- Hex-digit value for `bytes.fromhex`. -/
def hexVal (b : Nat) : Option Nat :=
  if 48 ≤ b && b ≤ 57 then some (b - 48)
  else if 65 ≤ b && b ≤ 70 then some (b - 55)
  else if 97 ≤ b && b ≤ 102 then some (b - 87)
  else none

/-- Decode an even-length hex payload into latin-1 code points; `none`
models the `ValueError` swallowed by the source's bare `except`. -/
def hexPairs : List Nat → Option (List Nat)
  | [] => some []
  | a :: b :: rest => do
    let x ← hexVal a
    let y ← hexVal b
    let t ← hexPairs rest
    some ((x * 16 + y) :: t)
  | [_] => none

/-- The source's `_parse_hex_string(data, idx)` (cursor on `<`): strips
space/CR/LF (but not tab) from the payload, pads odd length with `0`, and
decodes byte pairs as latin-1; any failure yields the empty string. -/
def parse_hex_string (data : List Nat) (idx : Nat) : PdfValue × Nat :=
  let endIdx := (pyFind data 62 (idx + 1)).getD data.length
  let hexData := (pySlice data (idx + 1 : Nat) (endIdx : Nat)).filter
    (fun b => !(b == 32 || b == 10 || b == 13))
  let hexData := if hexData.length % 2 == 1 then hexData ++ [48] else hexData
  let decoded := (hexPairs hexData).getD []
  (.hexstring decoded, endIdx + 1)

mutual

/-- The source's `_parse_object(data, idx)`: skip whitespace, then dispatch
on the lookahead byte; a digit/sign/dot byte goes to the number regex first
and only on its failure to the `<digits> <digits> R` reference regex. -/
def parse_object : Nat → List Nat → Nat → Except PErr (PdfValue × Nat)
  | 0, _, _ => .error .fuel
  | fuel + 1, data, idx =>
    let idx := skip_ws data idx
    if idx ≥ data.length then .ok (.null, idx)
    else if nslice data idx 4 == pstr "null" then .ok (.null, idx + 4)
    else if nslice data idx 4 == pstr "true" then .ok (.boolean true, idx + 4)
    else if nslice data idx 5 == pstr "false" then .ok (.boolean false, idx + 5)
    else
      let c := (data.drop idx).headD 0
      if isDigit c || c == 43 || c == 45 || c == 46 then
        match match_number data idx with
        | some (tok, k) =>
          if tok.contains 46 then .ok (.real (ratOfNumTok tok), idx + k)
          else .ok (.int (intOfSignDigits tok), idx + k)
        | none =>
          match match_ref data idx with
          | some (n, g, k) => .ok (.ref (n : Int) (g : Int), idx + k)
          | none => parse_object_tail fuel data idx
      else parse_object_tail fuel data idx
termination_by structural fuel _ _ => fuel

/-- Continuation of `_parse_object` past the number branch: Name, literal
string, hex string / dictionary, array, trailing reference check, and the
lenient `NullObject` fallback consuming one byte. -/
def parse_object_tail : Nat → List Nat → Nat → Except PErr (PdfValue × Nat)
  | 0, _, _ => .error .fuel
  | fuel + 1, data, idx =>
    let c := (data.drop idx).headD 0
    if c == 47 then
      let nm := [c] ++ ((data.drop (idx + 1)).takeWhile (fun b => !isNameDelim b))
      .ok (.name nm, idx + nm.length)
    else if c == 40 then parse_literal_string data idx
    else if c == 60 then
      if (data.drop (idx + 1)).headD 0 == 60 then parse_dict_loop fuel data (idx + 2) []
      else .ok (parse_hex_string data idx)
    else if c == 91 then parse_array_loop fuel data (idx + 1) []
    else if nslice data idx 2 == pstr "<<" then parse_dict_loop fuel data (idx + 2) []
    else
      match match_ref data idx with
      | some (n, g, k) => .ok (.ref (n : Int) (g : Int), idx + k)
      | none => .ok (.null, idx + 1)
termination_by structural fuel _ _ => fuel

/-- The loop of `_parse_array` (cursor already past `[`). -/
def parse_array_loop : Nat → List Nat → Nat → List PdfValue →
    Except PErr (PdfValue × Nat)
  | 0, _, _, _ => .error .fuel
  | fuel + 1, data, idx, acc =>
    let idx := skip_ws data idx
    if idx ≥ data.length || (data.drop idx).headD 0 == 93 then .ok (.arr acc, idx + 1)
    else do
      let (obj, idx') ← parse_object fuel data idx
      parse_array_loop fuel data idx' (acc ++ [obj])
termination_by structural fuel _ _ _ => fuel

/-- The loop of `_parse_dictionary` (cursor already past `<<`): a non-name
key position is tolerated by skipping one byte and retrying. -/
def parse_dict_loop : Nat → List Nat → Nat → List (List Nat × PdfValue) →
    Except PErr (PdfValue × Nat)
  | 0, _, _, _ => .error .fuel
  | fuel + 1, data, idx, acc =>
    let idx := skip_ws data idx
    if idx ≥ data.length || nslice data idx 2 == pstr ">>" then .ok (.dict acc, idx + 2)
    else if (data.drop idx).headD 0 != 47 then parse_dict_loop fuel data (idx + 1) acc
    else do
      let (key, idx1) ← parse_object fuel data idx
      let idx2 := skip_ws data idx1
      let (v, idx3) ← parse_object fuel data idx2
      let kname := match key with | .name s => s | _ => pstr "?"
      parse_dict_loop fuel data idx3 (dictSet acc kname v)
termination_by structural fuel _ _ _ => fuel

end

/-- Fuel that provably exceeds the recursion/iteration count of
`_parse_object` on a buffer: every nesting level and every loop iteration
consumes input bytes. -/
def pfuel (data : List Nat) : Nat := 4 * data.length + 16

/-- Truncation toward zero (`int()` of a Python float). -/
def pyTrunc (q : ℚ) : Int := q.num.tdiv (q.den : Int)

/-- Matcher for the anchored header regex `(\d+)\s+(\d+)\s+obj\s*`:
returns object number, generation and match length. -/
def match_obj_header (data : List Nat) : Option (Nat × Nat × Nat) :=
  let d1 := data.takeWhile isDigit
  if d1 = [] then none
  else
    let r1 := data.drop d1.length
    let w1 := r1.takeWhile isWs6
    if w1 = [] then none
    else
      let r2 := r1.drop w1.length
      let d2 := r2.takeWhile isDigit
      if d2 = [] then none
      else
        let r3 := r2.drop d2.length
        let w2 := r3.takeWhile isWs6
        if w2 = [] then none
        else
          let r4 := r3.drop w2.length
          if pstr "obj" == r4.take 3 then
            let w3 := (r4.drop 3).takeWhile isWs6
            some (digitsToNat d1, digitsToNat d2,
              d1.length + w1.length + d2.length + w2.length + 3 + w3.length)
          else none

/-- Matcher for the anchored regex `\s*stream\r?\n`: returns match length. -/
def match_stream_kw (data : List Nat) : Option Nat :=
  let w := data.takeWhile isWs6
  let r := data.drop w.length
  if pstr "stream" == r.take 6 then
    match r.drop 6 with
    | 13 :: 10 :: _ => some (w.length + 8)
    | 10 :: _ => some (w.length + 7)
    | _ => none
  else none

/-- Search for the regex `\r?\nendstream`: returns (start, end) of the
leftmost match. -/
def search_endstream : List Nat → Nat → Option (Nat × Nat)
  | [], _ => none
  | b :: rest, i =>
    if b == 13 && pstr "\nendstream" == rest.take 10 then some (i, i + 12)
    else if b == 10 && pstr "endstream" == rest.take 9 then some (i, i + 10)
    else search_endstream rest (i + 1)

/-- Search for the regex `startxref\s+(\d+)`: value of the first digit
group after the first viable `startxref` occurrence. -/
def search_startxref : List Nat → Option Int
  | [] => none
  | b :: rest =>
    let data := b :: rest
    if pstr "startxref" == data.take 9 then
      let r := data.drop 9
      let w := r.takeWhile isWs6
      let ds := (r.drop w.length).takeWhile isDigit
      if !w.isEmpty && !ds.isEmpty then some (digitsToNat ds : Int)
      else search_startxref rest
    else search_startxref rest

/-- Index of the first `>>` in a byte list, counting from the given base. -/
def find_dclose : List Nat → Nat → Option Nat
  | 62 :: 62 :: _, i => some i
  | _ :: rest, i => find_dclose rest (i + 1)
  | [], _ => none

/-- Search for the regex `trailer\s*<<(.+?)>>` (DOTALL): content of the
lazy group of the leftmost match. -/
def search_trailer : List Nat → Option (List Nat)
  | [] => none
  | b :: rest =>
    let data := b :: rest
    if pstr "trailer" == data.take 7 then
      let r := data.drop 7
      let r2 := r.drop (r.takeWhile isWs6).length
      if pstr "<<" == r2.take 2 then
        let body := r2.drop 2
        match find_dclose (body.drop 1) 1 with
        | some j => some (body.take j)
        | none => search_trailer rest
      else search_trailer rest
    else search_trailer rest

/-- Mutable reader state: `self._xref` (object number ↦ (offset, generation)),
`self._objects` (the resolution cache, which can memoise Python `None`),
and `self._trailer`. -/
structure RState where
  xref : List (Int × Int × Int)
  objects : List (Int × Option PdfValue)
  trailer : Option PdfValue

/-- Lookup `self._xref[n]` as an option. -/
def xlookup : List (Int × Int × Int) → Int → Option (Int × Int)
  | [], _ => none
  | (n, o, g) :: rest, k => if n == k then some (o, g) else xlookup rest k

/-- Python dict assignment on the xref map. -/
def xinsert : List (Int × Int × Int) → Int → Int × Int → List (Int × Int × Int)
  | [], k, v => [(k, v.1, v.2)]
  | (n, o, g) :: rest, k, v =>
    if n == k then (n, v.1, v.2) :: rest else (n, o, g) :: xinsert rest k v

/-- Lookup `self._objects[n]` as an option (the cached value may itself be
Python `None`). -/
def olookup : List (Int × Option PdfValue) → Int → Option (Option PdfValue)
  | [], _ => none
  | (n, v) :: rest, k => if n == k then some v else olookup rest k

/-- Python dict assignment on the object cache. -/
def oinsert : List (Int × Option PdfValue) → Int → Option PdfValue →
    List (Int × Option PdfValue)
  | [], k, v => [(k, v)]
  | (n, v') :: rest, k, v =>
    if n == k then (n, v) :: rest else (n, v') :: oinsert rest k v

/-- Big-endian `int.from_bytes`. -/
def intFromBytesBE (bs : List Nat) : Int :=
  (bs.foldl (fun a b => a * 256 + b) 0 : Nat)

/-- Object-number extraction of `get_object`: `ref.object_number` for an
IndirectObject (the generation is not consulted), else `int(ref)`. -/
def obj_num_of : PdfValue → Except PErr Int
  | .ref n _ => .ok n
  | v => pyIntObj v

/-- The `endstream` scan of `_parse_indirect_object`: body bytes up to the
leftmost `\r?\nendstream` and the cursor past it ( `(b"", idx)` when the
keyword is absent). -/
def stream_scan (data : List Nat) (idx : Nat) : List Nat × Int :=
  match search_endstream (data.drop idx) 0 with
  | some (s, e) => ((data.drop idx).take s, ((idx + e : Nat) : Int))
  | none => ([], (idx : Nat))

/-- Body-slicing of `_parse_indirect_object`: a truthy (nonzero) resolved
`/Length` slices `data[idx : idx+length]`, anything else falls back to the
`endstream` scan. -/
def stream_slice (data : List Nat) (idx : Nat) (len? : Option Int) :
    List Nat × Int :=
  match len? with
  | some n =>
    if n == 0 then stream_scan data idx
    else (pySlice data (idx : Int) ((idx : Int) + n), (idx : Int) + n)
  | none => stream_scan data idx

mutual

/-- The source's `get_object(ref)`: extract the object number (via
`ref.object_number` for an IndirectObject, else `int(ref)`), consult the
memo cache, then the xref map (a missing number yields `None`), else parse
the indirect object at the mapped offset and memoise it. -/
def get_object : Nat → List Nat → RState → PdfValue →
    Except PErr (Option PdfValue × RState)
  | 0, _, _, _ => .error .fuel
  | fuel + 1, data, st, r => do
    let objNum ← obj_num_of r
    match olookup st.objects objNum with
    | some cached => .ok (cached, st)
    | none =>
      match xlookup st.xref objNum with
      | none => .ok (none, st)
      | some (offset, _) => do
        let (obj, _, st') ← parse_indirect_object fuel data st offset
        .ok (obj, { st' with objects := oinsert st'.objects objNum obj })
termination_by structural fuel _ _ _ => fuel

/-- The source's `_parse_indirect_object(offset)`: match the
`<num> <gen> obj` header (failure returns `None`), parse the value, then
promote to a Stream when a `stream` keyword follows, determining the body
length from `/Length` (resolving one indirect hop) or by scanning for
`endstream`. -/
def parse_indirect_object : Nat → List Nat → RState → Int →
    Except PErr (Option PdfValue × Int × RState)
  | 0, _, _, _ => .error .fuel
  | fuel + 1, fileData, st, offset => do
    let data := pySliceFrom fileData offset
    match match_obj_header data with
    | none => .ok (none, offset, st)
    | some (_, _, hend) => do
      let (obj, idx) ← parse_object (pfuel data) data hend
      match match_stream_kw (data.drop idx) with
      | none => .ok (some obj, offset + idx, st)
      | some sk => do
        let idx := idx + sk
        let ls ← length_of fuel fileData st obj
        let sd := stream_slice data idx ls.1
        match obj with
        | .dict es => .ok (some (.stream es sd.1 none), offset + sd.2, ls.2)
        | _ => .error .typeErr
termination_by structural fuel _ _ _ => fuel

/-- Stream-length determination of `_parse_indirect_object`: a
`NumberObject`-valued `/Length` is used directly, an IndirectObject one is
resolved through `get_object` (truthy results converted via the `.value`
idiom), anything else leaves the length undetermined. -/
def length_of : Nat → List Nat → RState → PdfValue →
    Except PErr (Option Int × RState)
  | 0, _, _, _ => .error .fuel
  | fuel + 1, fileData, st, obj =>
    match obj with
    | .dict es =>
      (match dictFind es (pstr "/Length") with
      | some (.int n) => .ok (some n, st)
      | some (.real q) => .ok (some (pyTrunc q), st)
      | some (.ref n g) => do
        let (lref, st') ← get_object fuel fileData st (.ref n g)
        if otruthy lref then do
          let v ← pyIntOfValueAttr (lref.getD .null)
          .ok (some v, st')
        else .ok (none, st')
      | _ => .ok (none, st))
    | _ => .ok ((none : Option Int), st)
termination_by structural fuel _ _ _ => fuel

end

/-- The source's `StreamObject.decode_data()`: return the memoised decoded
buffer if present; otherwise apply each `/Filter` entry in order, where
`FlateDecode`/`Fl` attempts zlib inflation (modelled by the `inflate`
parameter, `none` standing for `zlib.error`) and keeps the original bytes
on failure; any other filter name passes through; the result is memoised.
Returns the decoded bytes and the new memo field. -/
def decode_data (inflate : List Nat → Option (List Nat))
    (es : List (List Nat × PdfValue)) (raw : List Nat)
    (decoded : Option (List Nat)) : Except PErr (List Nat × Option (List Nat)) :=
  match decoded with
  | some d => .ok (d, some d)
  | none =>
    let filters := dictFind es (pstr "/Filter")
    if otruthy filters then do
      let fl : List (List Nat) ← match filters with
        | some (.name s) => pure [s]
        | some (.arr xs) => pure (xs.map (fun f => match f with | .name s => s | _ => pstr "?"))
        | some (.dict es') => pure (es'.map (fun e => e.1))
        | some (.stream es' _ _) => pure (es'.map (fun e => e.1))
        | _ => .error .typeErr
      let dataOut := fl.foldl (fun d fname =>
        if fname == pstr "/FlateDecode" || fname == pstr "/Fl" then
          match inflate d with
          | some d' => d'
          | none => d
        else d) raw
      .ok (dataOut, some dataOut)
    else .ok (raw, some raw)

/-- One fixed 20-byte entry round of the classic-table subsection loop
(`for i in range(count)`), carried `count` times: entries shorter than 18
bytes and unparsable numbers are skipped (`except ValueError: pass`), and
only type `n` entries absent from the map are inserted. -/
def xref_entries : Nat → List Nat → Nat → Int → Int → List (Int × Int × Int) →
    Nat × List (Int × Int × Int)
  | 0, _, idx, _, _, xr => (idx, xr)
  | m + 1, data, idx, start, i, xr =>
    let entry := nslice data idx 20
    let idx' := idx + 20
    let xr' :=
      if entry.length ≥ 18 then
        match pyIntBytes (entry.take 10), pyIntBytes (pySlice entry (11 : Int) (16 : Int)) with
        | some eo, some eg =>
          let etype := pySlice entry (17 : Int) (18 : Int)
          let objNum := start + i
          if etype == [110] && (xlookup xr objNum).isNone then xinsert xr objNum (eo, eg)
          else xr
        | _, _ => xr
      else xr
    xref_entries m data idx' start (i + 1) xr'

/-- The line loop of `_parse_xref_table`: read newline-terminated lines,
stop at `trailer` or end of data, skip blank/`xref` lines, and process
`<start> <count>` subsection headers. Returns the final cursor and map. -/
def xref_table_loop : Nat → List Nat → Nat → List (Int × Int × Int) →
    Nat × List (Int × Int × Int)
  | 0, _, idx, xr => (idx, xr)
  | fuel + 1, data, idx, xr =>
    match pyFind data 10 idx with
    | none => (idx, xr)
    | some le =>
      let line := pyStrip (pySlice data (idx : Int) (le : Int))
      let idx1 := le + 1
      if pstr "trailer" == line.take 7 then (idx1, xr)
      else if line.isEmpty || line == pstr "xref" then xref_table_loop fuel data idx1 xr
      else
        match pySplit line with
        | [p0, p1] =>
          (match pyIntBytes p0, pyIntBytes p1 with
          | some start, some count =>
            let r := xref_entries count.toNat data idx1 start 0 xr
            xref_table_loop fuel data r.1 r.2
          | _, _ => xref_table_loop fuel data idx1 xr)
        | _ => xref_table_loop fuel data idx1 xr

/-- The `int(x.value if hasattr(x, "value") else x.value)` pattern used on
dictionary values that must expose `.value` (`AttributeError` otherwise). -/
def pyIntOfValueOnly : PdfValue → Except PErr Int
  | .boolean b => .ok (if b then 1 else 0)
  | .int n => .ok n
  | .real q => .ok (pyTrunc q)
  | .string s => match pyIntBytes s with | some n => .ok n | none => .error .valueErr
  | .hexstring s => match pyIntBytes s with | some n => .ok n | none => .error .valueErr
  | _ => .error .attrErr

/-- The `/Index` pairing `[(int(index[i].value), int(index[i+1].value))
for i in range(0, len(index), 2)]`; an odd length raises `IndexError`. -/
def ixPairs : List PdfValue → Except PErr (List (Int × Int))
  | [] => .ok []
  | [_] => .error .idxErr
  | a :: b :: rest => do
    let x ← pyIntOfValueOnly a
    let y ← pyIntOfValueOnly b
    let t ← ixPairs rest
    .ok ((x, y) :: t)

/-- Unpack one xref-stream record's fields according to the `/W` widths:
width 0 contributes a literal 0 without advancing, otherwise big-endian
bytes are read and the cursor advances by the (possibly negative) width. -/
def xsFields (w : List Int) (data : List Nat) (di : Int) : List Int × Int :=
  w.foldl (fun (p : List Int × Int) width =>
    if width == 0 then (p.1 ++ [(0 : Int)], p.2)
    else (p.1 ++ [intFromBytesBE (pySlice data p.2 (p.2 + width))], p.2 + width))
    ([], di)

/-- The per-subsection record loop of `_parse_xref_stream`: stop when fewer
than `entry_size` bytes remain, read the fields, and insert type-1 records
absent from the map (`fields[1]`/`fields[2]`, `IndexError` when `/W` is
too short). -/
def xstream_rows : Nat → Int → Int → List Int → Int → List Nat → Int →
    List (Int × Int × Int) → Except PErr (Int × List (Int × Int × Int))
  | 0, _, _, _, _, _, di, xr => .ok (di, xr)
  | m + 1, start, i, w, entrySize, data, di, xr =>
    if di + entrySize > (data.length : Int) then .ok (di, xr)
    else
      let p := xsFields w data di
      let objNum := start + i
      match w with
      | [] => .error .idxErr
      | w0 :: _ =>
        let etype := if w0 > 0 then p.1.headD 0 else 1
        if etype == 1 && (xlookup xr objNum).isNone then
          match p.1 with
          | _ :: f1 :: rest =>
            xstream_rows m start (i + 1) w entrySize data p.2
              (xinsert xr objNum (f1, rest.headD 0))
          | _ => .error .idxErr
        else xstream_rows m start (i + 1) w entrySize data p.2 xr

/-- The `/W` transformation of `_parse_xref_stream`: missing `/W` defaults
to `[1, 2, 1]`, an array maps through the `.value` idiom, a dict iterates
its NameObject keys (whose names fail `int()`), anything else is not
iterable. -/
def w_of (es : List (List Nat × PdfValue)) : Except PErr (List Int) :=
  match dictFind es (pstr "/W") with
  | none => .ok [1, 2, 1]
  | some (.arr xs) => xs.mapM pyIntOfValueAttr
  | some (.dict es') => es'.mapM (fun e =>
      match pyIntBytes e.1 with
      | some n => pure n
      | none => Except.error PErr.valueErr)
  | some (.stream es' _ _) => es'.mapM (fun e =>
      match pyIntBytes e.1 with
      | some n => pure n
      | none => Except.error PErr.valueErr)
  | some _ => .error .typeErr

/-- The `/Size` read of `_parse_xref_stream` (default `NumberObject(0)`),
via the mandatory `.value` attribute. -/
def size_of (es : List (List Nat × PdfValue)) : Except PErr Int :=
  match dictFind es (pstr "/Size") with
  | none => .ok 0
  | some v => pyIntOfValueOnly v

/-- The subsection list of `_parse_xref_stream`: a truthy `/Index` is
paired up (array case; a dict raises on integer subscripting, other
objects on `len()`), else the default `(0, /Size)`. -/
def index_subsections (es : List (List Nat × PdfValue)) (size : Int) :
    Except PErr (List (Int × Int)) :=
  let index? := dictFind es (pstr "/Index")
  if otruthy index? then
    match index? with
    | some (.arr xs) => ixPairs xs
    | some (.dict _) => .error .idxErr
    | some (.stream _ _ _) => .error .idxErr
    | _ => .error .typeErr
  else .ok [((0 : Int), size)]

/-- Fold `xstream_rows` over the `/Index` subsections, threading the data
cursor across subsections as the source does. -/
def xstream_subs : List (Int × Int) → List Int → Int → List Nat → Int →
    List (Int × Int × Int) → Except PErr (Int × List (Int × Int × Int))
  | [], _, _, _, di, xr => .ok (di, xr)
  | (start, count) :: rest, w, entrySize, data, di, xr => do
    let (di', xr') ← xstream_rows count.toNat start 0 w entrySize data di xr
    xstream_subs rest w entrySize data di' xr'

mutual

/-- The source's `_parse_xref(offset)`: dispatch on whether the bytes at
the target offset start with the `xref` keyword. -/
def parse_xref : Nat → (List Nat → Option (List Nat)) → List Nat → RState → Int →
    Except PErr RState
  | 0, _, _, _, _ => .error .fuel
  | fuel + 1, inflate, fileData, st, offset =>
    let data := pySliceFrom fileData offset
    if pstr "xref" == data.take 4 then parse_xref_table fuel inflate fileData st offset
    else parse_xref_stream fuel inflate fileData st offset
termination_by structural fuel _ _ _ _ => fuel

/-- The source's `_parse_xref_table(offset)`: run the line loop over the
subsections, parse the `trailer << ... >>` dictionary found near the final
cursor, store it as `self._trailer`, and recurse on a truthy `/Prev`. -/
def parse_xref_table : Nat → (List Nat → Option (List Nat)) → List Nat → RState → Int →
    Except PErr RState
  | 0, _, _, _, _ => .error .fuel
  | fuel + 1, inflate, fileData, st, offset => do
    let data := pySliceFrom fileData offset
    let idx0 := ((pyFind data 10 4).map (· + 1)).getD 0
    let r := xref_table_loop (data.length + 2) data idx0 st.xref
    let st := { st with xref := r.2 }
    match search_trailer (pySliceFrom data ((r.1 : Int) - 100)) with
    | none => .ok st
    | some grp => do
      let trailerData := pstr "<<" ++ grp ++ pstr ">>"
      let (tr, _) ← parse_object (pfuel trailerData) trailerData 0
      let st := { st with trailer := some tr }
      if truthy tr then do
        let prev? ← pyGetAttrD tr (pstr "/Prev")
        match prev? with
        | some prev =>
          if truthy prev then do
            let pOff ← pyIntOfValueAttr prev
            parse_xref fuel inflate fileData st pOff
          else .ok st
        | none => .ok st
      else .ok st
termination_by structural fuel _ _ _ _ => fuel

/-- The source's `_parse_xref_stream(offset)`: the object at the offset
must parse as a Stream (else `PdfReadError`), becomes `self._trailer`, its
decoded body is unpacked per `/W` and `/Index` (default `(0, /Size)`), and
a truthy `/Prev` recurses. -/
def parse_xref_stream : Nat → (List Nat → Option (List Nat)) → List Nat → RState → Int →
    Except PErr RState
  | 0, _, _, _, _ => .error .fuel
  | fuel + 1, inflate, fileData, st, offset => do
    let (obj?, _, st) ← parse_indirect_object (fuel + 1) fileData st offset
    match obj? with
    | some (.stream es raw dec) => do
      let st := { st with trailer := some (.stream es raw dec) }
      let dd ← decode_data inflate es raw dec
      let w ← w_of es
      let size ← size_of es
      let subsections ← index_subsections es size
      let entrySize := w.foldl (· + ·) 0
      let q ← xstream_subs subsections w entrySize dd.1 0 st.xref
      let st := { st with xref := q.2 }
      let prev? ← pyGetAttrD (.stream es raw dec) (pstr "/Prev")
      match prev? with
      | some prev =>
        if truthy prev then do
          let pOff ← pyIntOfValueAttr prev
          parse_xref fuel inflate fileData st pOff
        else .ok st
      | none => .ok st
    | _ => .error (.pdfRead "Invalid xref stream")
termination_by structural fuel _ _ _ _ => fuel

end

/-- A parsed document handle: the final reader state plus the
`is_encrypted` flag computed at the end of `_parse`. -/
structure PdfDoc where
  st : RState
  is_encrypted : Bool

/-- The encryption check at the end of `_parse`: a truthy stored trailer
is queried for `/Encrypt`, and a truthy result sets the flag. -/
def encrypt_flag (tr : Option PdfValue) : Except PErr Bool :=
  match tr with
  | some t =>
    if truthy t then
      match pyGetAttrD t (pstr "/Encrypt") with
      | .ok e => .ok (otruthy e)
      | .error er => .error er
    else .ok false
  | none => .ok false

/-- The source's `PdfReader.__init__` on a bytes input (no password):
an empty buffer raises `EmptyFileError`; a missing `startxref` raises
`PdfReadError`; otherwise the xref chain is parsed from the startxref
offset found in the last 1024 bytes, and `/Encrypt` in the stored trailer
sets the `is_encrypted` flag. -/
def pdf_reader_init (inflate : List Nat → Option (List Nat)) (fuel : Nat)
    (data : List Nat) : Except PErr PdfDoc := do
  if data.isEmpty then .error (.emptyFile "PDF file is empty")
  else
    match search_startxref (pySliceFrom data (-1024)) with
    | none => .error (.pdfRead "Cannot find startxref")
    | some sx => do
      let st ← parse_xref fuel inflate data ⟨[], [], none⟩ sx
      let enc ← encrypt_flag st.trailer
      .ok ⟨st, enc⟩

/-- Name-equality test `x == NameObject(s)` of the source: true exactly
when `x` is a NameObject with the same (slash-prefixed) name. -/
def nameEq (o : Option PdfValue) (s : List Nat) : Bool :=
  match o with
  | some (.name t) => t == s
  | _ => false

mutual

/-- The source's `_collect_pages(node)`: resolve an IndirectObject node,
return on `None`/falsy/non-dictionary nodes, emit `/Page` nodes as
`PageObject`s (a fresh page dict updated with the node), and recurse into
the `/Kids` of `/Pages` nodes. There is no visited set. -/
def collect_pages : Nat → List Nat → RState → PdfValue →
    List (List (List Nat × PdfValue)) →
    Except PErr (List (List (List Nat × PdfValue)) × RState)
  | 0, _, _, _, _ => .error .fuel
  | fuel + 1, data, st, node, acc => do
    let (node?, st) ← (match node with
      | .ref n g => get_object (fuel + 1) data st (.ref n g)
      | v => pure (some v, st))
    match node? with
    | some nd =>
      if truthy nd then
        match nd with
        | .dict es => collect_pages_dict fuel data st es acc
        | .stream es _ _ => collect_pages_dict fuel data st es acc
        | _ => .ok (acc, st)
      else .ok (acc, st)
    | none => .ok (acc, st)
termination_by structural fuel _ _ _ _ => fuel

/-- Body of `_collect_pages` for a dictionary node: dispatch on `/Type`. -/
def collect_pages_dict : Nat → List Nat → RState → List (List Nat × PdfValue) →
    List (List (List Nat × PdfValue)) →
    Except PErr (List (List (List Nat × PdfValue)) × RState)
  | 0, _, _, _, _ => .error .fuel
  | fuel + 1, data, st, es, acc =>
    let ntype := dictFind es (pstr "/Type")
    if nameEq ntype (pstr "/Page") then
      .ok (acc ++ [dictUpdate [(pstr "/Type", .name (pstr "/Page"))] es], st)
    else if nameEq ntype (pstr "/Pages") then do
      let kids0 := (dictFind es (pstr "/Kids")).getD (.arr [])
      let (kids?, st) ← (match kids0 with
        | .ref n g => get_object (fuel + 1) data st (.ref n g)
        | v => pure (some v, st))
      let kidList ← (match kids? with
        | some (.arr xs) => pure xs
        | some (.dict es') => pure (es'.map (fun e => (.name e.1 : PdfValue)))
        | some (.stream es' _ _) => pure (es'.map (fun e => (.name e.1 : PdfValue)))
        | _ => (.error .typeErr : Except PErr (List PdfValue)))
      collect_kids fuel data st kidList acc
    else .ok (acc, st)
termination_by structural fuel _ _ _ _ => fuel

/-- The `for kid in kids: self._collect_pages(kid)` loop. -/
def collect_kids : Nat → List Nat → RState → List PdfValue →
    List (List (List Nat × PdfValue)) →
    Except PErr (List (List (List Nat × PdfValue)) × RState)
  | 0, _, _, _, _ => .error .fuel
  | fuel + 1, data, st, kids, acc =>
    match kids with
    | [] => .ok (acc, st)
    | k :: rest => do
      let (acc', st') ← collect_pages fuel data st k acc
      collect_kids fuel data st' rest acc'
termination_by structural fuel _ _ _ _ => fuel

end

/-- The source's `pages` property: follow `/Root` then `/Pages` from the
stored trailer (each step bailing out to an empty list on a falsy value)
and flatten the page tree with `_collect_pages`. -/
def pdf_pages (fuel : Nat) (data : List Nat) (st : RState) :
    Except PErr (List (List (List Nat × PdfValue)) × RState) := do
  match st.trailer with
  | none => .ok ([], st)
  | some tr =>
    if !truthy tr then .ok ([], st)
    else do
      let rootRef? ← pyGetAttrD tr (pstr "/Root")
      if !otruthy rootRef? then .ok ([], st)
      else do
        let (root?, st) ← get_object fuel data st (rootRef?.getD .null)
        if !otruthy root? then .ok ([], st)
        else do
          let pagesRef? ← pyGetAttrD (root?.getD .null) (pstr "/Pages")
          if !otruthy pagesRef? then .ok ([], st)
          else do
            let (pages?, st) ← get_object fuel data st (pagesRef?.getD .null)
            if !otruthy pages? then .ok ([], st)
            else collect_pages fuel data st (pages?.getD .null) []

/-- The source's `RectangleObject(box)` constructor: a falsy argument
(including `None` from a failed resolution) yields four zeros; an array
contributes its first four entries unwrapped; any other truthy object
fails on the `arr[:4]` slice with `TypeError`. -/
def rectangle_object : Option PdfValue → Except PErr (List PdfValue)
  | none => .ok [.int 0, .int 0, .int 0, .int 0]
  | some (.arr xs) => .ok (if xs.isEmpty then [.int 0, .int 0, .int 0, .int 0] else xs.take 4)
  | some v => if truthy v then .error .typeErr else .ok [.int 0, .int 0, .int 0, .int 0]

/-- The source's `PageObject.mediabox` getter: the page's own `/MediaBox`;
failing that (and only when the page has a `pdf` back-reference) the
direct `/Parent`'s `/MediaBox` (resolving one indirect hop, modelled by
the `resolve` parameter standing for `IndirectObject.get_object()`);
failing that the US-Letter default `[0, 0, 612, 792]`. The result is the
entry list of the returned `RectangleObject`. -/
def mediabox (resolve : Int → Int → Option PdfValue) (hasPdf : Bool)
    (page : List (List Nat × PdfValue)) : Except PErr (List PdfValue) :=
  let box0 := dictFind page (pstr "/MediaBox")
  let step : Except PErr (Option PdfValue) :=
    if box0.isNone && hasPdf then
      let parent0 := dictFind page (pstr "/Parent")
      let parent1 : Option PdfValue :=
        match parent0 with
        | some (.ref n g) => resolve n g
        | v => v
      if otruthy parent1 then pyGetAttrD (parent1.getD .null) (pstr "/MediaBox")
      else .ok box0
    else .ok box0
  match step with
  | .error e => .error e
  | .ok none => .ok [.int 0, .int 0, .int 612, .int 792]
  | .ok (some b) =>
    let b2 : Option PdfValue :=
      match b with
      | .ref n g => resolve n g
      | _ => some b
    rectangle_object b2

/-- Modelled from the spec claim's words, for comparison with the code:
the `/MediaBox` of the nearest ancestor on the whole `/Parent` chain
(starting at the node itself). -/
def nearest_mediabox : Nat → (Int → Int → Option PdfValue) →
    List (List Nat × PdfValue) → Option PdfValue
  | 0, _, _ => none
  | fuel + 1, resolve, page =>
    match dictFind page (pstr "/MediaBox") with
    | some b => some b
    | none =>
      match dictFind page (pstr "/Parent") with
      | some (.ref n g) =>
        (match resolve n g with
        | some (.dict es) => nearest_mediabox fuel resolve es
        | _ => none)
      | some (.dict es) => nearest_mediabox fuel resolve es
      | _ => none

/-- Modelled from the spec claim's words, for comparison with the code:
whether `/Encrypt` is present (with a truthy value) in the merged trailer
of a classic-table `/Prev` chain, newer sections taking precedence — i.e.
the first trailer of the newest-to-oldest walk that contains the key
decides. Section trailers are located exactly as the code locates them. -/
def merged_encrypt : Nat → List Nat → Int → Option Bool
  | 0, _, _ => none
  | fuel + 1, data, offset =>
    let d := pySliceFrom data offset
    if pstr "xref" == d.take 4 then
      let idx0 := ((pyFind d 10 4).map (· + 1)).getD 0
      let r := xref_table_loop (d.length + 2) d idx0 []
      match search_trailer (pySliceFrom d ((r.1 : Int) - 100)) with
      | none => none
      | some grp =>
        let td := pstr "<<" ++ grp ++ pstr ">>"
        match parse_object (pfuel td) td 0 with
        | .ok (.dict es, _) =>
          (match dictFind es (pstr "/Encrypt") with
          | some v => some (truthy v)
          | none =>
            match dictFind es (pstr "/Prev") with
            | some (.int n) => merged_encrypt fuel data n
            | some _ => none
            | none => some false)
        | _ => none
    else none

/-- A zlib model that rejects every payload (all concrete documents used
below carry no compressed streams). -/
def inflate0 : List Nat → Option (List Nat) := fun _ => none

/-- Minimal synthetic one-page PDF: one classic xref table, one `/Page`
node and one content stream containing `(Hello) Tj` (the round-trip input
described by the spec). Object offsets 9/58/115/202, xref at 288. -/
def helloPdf : List Nat := pstr "%PDF-1.4\n1 0 obj\n<< /Type /Catalog /Pages 2 0 R >>\nendobj\n2 0 obj\n<< /Type /Pages /Kids [3 0 R] /Count 1 >>\nendobj\n3 0 obj\n<< /Type /Page /Parent 2 0 R /MediaBox [0 0 612 792] /Contents 4 0 R >>\nendobj\n4 0 obj\n<< /Length 36 >>\nstream\nBT /F1 24 Tf 72 712 Td (Hello) Tj ET\nendstream\nendobj\nxref\n0 5\n0000000000 65535 f \n0000000009 00000 n \n0000000058 00000 n \n0000000115 00000 n \n0000000202 00000 n \ntrailer\n<< /Size 5 /Root 1 0 R >>\nstartxref\n288\n%%EOF"

/-- Two classic xref sections: the newest (startxref → 188) binds object 1
to offset 9 and its trailer carries `/Prev 45` and `/Encrypt 5 0 R`; the
older section (offset 45) binds object 1 to the stale offset 111 and its
trailer has no `/Encrypt`. -/
def docA : List Nat := pstr "%PDF-1.4\n1 0 obj\n<< /Type /Catalog >>\nendobj\nxref\n0 5\n0000000000 65535 f \n0000000111 00000 n \n0000000000 00000 n \n0000000000 00000 n \n0000000000 00000 n \ntrailer\n<< /Size 5 /Root 1 0 R >>\nxref\n0 5\n0000000000 65535 f \n0000000009 00000 n \n0000000000 00000 n \n0000000000 00000 n \n0000000000 00000 n \ntrailer\n<< /Size 5 /Root 1 0 R /Prev 45 /Encrypt 5 0 R >>\nstartxref\n188\n%%EOF"

/-- Like `docA` (newest section at 203, `/Prev 45`), but `/Encrypt` only
in the OLDER trailer. -/
def docB : List Nat := pstr "%PDF-1.4\n1 0 obj\n<< /Type /Catalog >>\nendobj\nxref\n0 5\n0000000000 65535 f \n0000000111 00000 n \n0000000000 00000 n \n0000000000 00000 n \n0000000000 00000 n \ntrailer\n<< /Size 5 /Root 1 0 R /Encrypt 5 0 R >>\nxref\n0 5\n0000000000 65535 f \n0000000009 00000 n \n0000000000 00000 n \n0000000000 00000 n \n0000000000 00000 n \ntrailer\n<< /Size 5 /Root 1 0 R /Prev 45 >>\nstartxref\n203\n%%EOF"

/-- A buffer whose `startxref` points at bytes that are neither a classic
`xref` table nor a parsable indirect object. -/
def malformedXrefPdf : List Nat := pstr "zzzz\nstartxref\n0\n%%EOF"

/-- A nonempty buffer with no `startxref` token. -/
def noStartxrefPdf : List Nat := pstr "hello world"

/-! Concrete evaluation helpers for the round-trip claim. -/

/-- Document handle obtained by opening `helloPdf` (with a fallback value
that `pdf_reader_init` provably does not take). -/
def helloDoc : PdfDoc :=
  match pdf_reader_init inflate0 50 helloPdf with
  | .ok d => d
  | .error _ => ⟨⟨[], [], none⟩, false⟩

/-- The `/Kids` entry of the resolved `/Pages` node (object 2) of
`helloPdf`. -/
def helloKids : Option PdfValue :=
  match get_object 50 helloPdf helloDoc.st (.ref 2 0) with
  | .ok (some (.dict es), _) => dictFind es (pstr "/Kids")
  | _ => none

/-- The page list of `helloPdf`. -/
def helloPages : Except PErr (List (List (List Nat × PdfValue))) :=
  (pdf_pages 50 helloPdf helloDoc.st).map (fun p => p.1)

/-- Reader state whose resolver returns, for object number 2, a `/Pages`
node whose `/Kids` refers back to object 2 itself — the object-graph cycle
of the claim. (In Python such a cycle is built directly, e.g. by appending
a Pages node to its own `/Kids` `ArrayObject`; since Lean's inductive
values cannot alias, the heap back-edge is represented through the
resolution cache.) -/
def cycSt : RState :=
  ⟨[], [(2, some (.dict [(pstr "/Type", .name (pstr "/Pages")),
                         (pstr "/Kids", .arr [.ref 2 0])]))], none⟩

/-- Resolver for the C6 counterexample: object 2 is a parent WITHOUT a
`/MediaBox` whose own `/Parent` is object 1; object 1 (the grandparent)
carries `/MediaBox [0 0 200 300]`. -/
def gpResolve : Int → Int → Option PdfValue := fun n _ =>
  if n == 2 then
    some (.dict [(pstr "/Type", .name (pstr "/Pages")), (pstr "/Parent", .ref 1 0)])
  else if n == 1 then
    some (.dict [(pstr "/Type", .name (pstr "/Pages")),
                 (pstr "/MediaBox", .arr [.int 0, .int 0, .int 200, .int 300])])
  else none

/-- A page without its own `/MediaBox` whose `/Parent` is object 2. -/
def gpPage : List (List Nat × PdfValue) :=
  [(pstr "/Type", .name (pstr "/Page")), (pstr "/Parent", .ref 2 0)]

/-- Resolver mapping object 2 to a parent that itself carries
`/MediaBox [0 0 200 300]`. -/
def dpResolve : Int → Int → Option PdfValue := fun n _ =>
  if n == 2 then
    some (.dict [(pstr "/MediaBox", .arr [.int 0, .int 0, .int 200, .int 300])])
  else none

/-- The state after processing `docA`'s OLD xref section (offset 45, which
binds object 1 to the stale offset 111) starting from a state that already
binds object 1 to offset 9 (the newest section's binding). -/
def c3Old : RState :=
  match parse_xref 10 inflate0 docA ⟨[(1, 9, 0)], [], none⟩ 45 with
  | .ok s => s
  | .error _ => ⟨[], [], none⟩

/-- The document handle for `docB`. -/
def docBDoc : PdfDoc :=
  match pdf_reader_init inflate0 50 docB with
  | .ok d => d
  | .error _ => ⟨⟨[], [], none⟩, false⟩

/-- The result of the first resolution of object 1 of `helloPdf`. -/
def c9run : Option PdfValue × RState :=
  match get_object 40 helloPdf helloDoc.st (.ref 1 0) with
  | .ok p => p
  | .error _ => (none, ⟨[], [], none⟩)

/-- Replace every generation stored in the xref map by an arbitrary
function of itself, leaving offsets, cache and trailer alone. -/
def genMap (f : Int → Int) (st : RState) : RState :=
  ⟨st.xref.map (fun e => (e.1, e.2.1, f e.2.2)), st.objects, st.trailer⟩

/-- C1: for an input positioned at the bare sequence `3 0 R`, `_parse_object`
returns `NumberObject(3)` after consuming a single byte instead of the
`IndirectReference(3, 0)` the claim describes: the number regex
`([+-]?\d+\.?\d*)` always succeeds on a digit lookahead and returns before
the `(\d+)\s+(\d+)\s+R` branch can run, so that branch is unreachable. -/
theorem C1_bare_reference_parses_as_number :
    parse_object (pfuel (pstr "3 0 R")) (pstr "3 0 R") 0 = .ok (.int 3, 1) := rfl

set_option maxHeartbeats 1000000 in
/-- C2: on the minimal synthetic one-page PDF, opening succeeds and the
trailer and xref are read correctly, but the `/Kids` array of the `/Pages`
node parses as `[3, 0, null]` (three junk values instead of one
IndirectReference, by the C1 bug), so `pages` returns the empty list —
not one Page — and the claimed text "Hello" is never reachable. -/
theorem C2_hello_roundtrip_yields_no_pages :
    pdf_reader_init inflate0 50 helloPdf = .ok helloDoc ∧
    helloDoc.st.trailer = some (.dict [(pstr "/Size", .int 5), (pstr "/Root", .int 1)]) ∧
    helloDoc.st.xref = [(1, 9, 0), (2, 58, 0), (3, 115, 0), (4, 202, 0)] ∧
    helloKids = some (.arr [.int 3, .int 0, .null]) ∧
    helloPages = .ok [] :=
  ⟨rfl, rfl, rfl, rfl, rfl⟩

theorem cyc_step (k : Nat) (data : List Nat)
    (acc : List (List (List Nat × PdfValue))) :
    collect_pages (k + 3) data cycSt (.ref 2 0) acc =
      Except.bind (collect_pages k data cycSt (.ref 2 0) acc)
        (fun p => collect_kids k data p.2 [] p.1) := rfl

/-- C4: `_collect_pages` has no visited set: on the cyclic page tree of
`cycSt`, the walk re-enters the same node forever, so for EVERY recursion
budget the computation exhausts it (Python: unbounded recursion /
RecursionError), instead of terminating with the pages collected before
the repeat as the claim states. -/
theorem C4_cyclic_kids_never_terminates (fuel : Nat) (data : List Nat)
    (acc : List (List (List Nat × PdfValue))) :
    collect_pages fuel data cycSt (.ref 2 0) acc = .error .fuel := by
  induction fuel using Nat.strong_induction_on with
  | _ fuel ih =>
    match fuel, ih with
    | 0, _ => rfl
    | 1, _ => rfl
    | 2, _ => rfl
    | k + 3, ih =>
      rw [cyc_step k data acc, ih k (by omega)]
      rfl

/-- C5 counterexample: `malformedXrefPdf` is nonempty and has a
`startxref` (pointing at offset 0, which holds neither a classic table
nor a parsable indirect object), yet construction raises
`PdfReadError("Invalid xref stream")` out of `__init__` — the
`MalformedXref` condition is NOT absorbed, contradicting the claim that
only EmptyInput and MissingStartXref are fatal. -/
theorem C5_malformed_xref_raises :
    malformedXrefPdf ≠ [] ∧
    search_startxref (pySliceFrom malformedXrefPdf (-1024)) = some 0 ∧
    pdf_reader_init inflate0 50 malformedXrefPdf =
      .error (.pdfRead "Invalid xref stream") := by
  refine ⟨?_, rfl, rfl⟩
  intro h
  exact absurd (congrArg List.length h) (by decide)

/-- C5 amended: construction fails outright for a zero-length buffer
(EmptyFileError), for a missing `startxref` token (PdfReadError), and ALSO
for a malformed xref: when the startxref target offset yields neither a
classic table nor a stream object, `PdfReadError("Invalid xref stream")`
propagates out of construction. -/
theorem C5_fatal_construction_errors :
    (pdf_reader_init inflate0 50 [] = .error (.emptyFile "PDF file is empty")) ∧
    (∀ (inflate : List Nat → Option (List Nat)) (fuel : Nat) (data : List Nat),
      data ≠ [] → search_startxref (pySliceFrom data (-1024)) = none →
      pdf_reader_init inflate fuel data = .error (.pdfRead "Cannot find startxref")) ∧
    (pdf_reader_init inflate0 50 malformedXrefPdf =
      .error (.pdfRead "Invalid xref stream")) := by
  refine ⟨rfl, ?_, rfl⟩
  intro inflate fuel data h1 h2
  have he : data.isEmpty = false := by
    cases data with
    | nil => exact absurd rfl h1
    | cons a l => rfl
  simp [pdf_reader_init, he, h2]

/-- C5 witness: the three fatal behaviours at concrete inputs; the middle
conjunct of the theorem applied to `noStartxrefPdf`. -/
theorem C5_fatal_construction_errors_witness :
    pdf_reader_init inflate0 7 noStartxrefPdf =
      .error (.pdfRead "Cannot find startxref") :=
  C5_fatal_construction_errors.2.1 inflate0 7 noStartxrefPdf
    (by intro h; exact absurd (congrArg List.length h) (by decide))
    rfl

/-- C6 counterexample: on a page whose grandparent (and only the
grandparent) defines `/MediaBox [0 0 200 300]`, the nearest ancestor on
the chain has that box, but the `mediabox` accessor returns the US-Letter
default — the code consults only the DIRECT parent, never the rest of the
ancestor chain. -/
theorem C6_grandparent_box_ignored :
    nearest_mediabox 10 gpResolve gpPage =
      some (.arr [.int 0, .int 0, .int 200, .int 300]) ∧
    mediabox gpResolve true gpPage = .ok [.int 0, .int 0, .int 612, .int 792] :=
  ⟨rfl, rfl⟩

/-- C6 amended: a Page lacking `/MediaBox` adopts the `/MediaBox` of its
DIRECT `/Parent` only (one level of inheritance); when the resolved direct
parent also lacks one, the US-Letter default `(0, 0, 612, 792)` is
returned regardless of what other ancestors define; in particular a direct
parent defining `[0 0 200 300]` resolves to `(0, 0, 200, 300)`. -/
theorem C6_mediabox_direct_parent_only :
    (∀ (resolve : Int → Int → Option PdfValue) (page : List (List Nat × PdfValue))
        (n g : Int) (es : List (List Nat × PdfValue)) (B : List PdfValue),
      dictFind page (pstr "/MediaBox") = none →
      dictFind page (pstr "/Parent") = some (.ref n g) →
      resolve n g = some (.dict es) →
      dictFind es (pstr "/MediaBox") = some (.arr B) → B ≠ [] →
      mediabox resolve true page = .ok (B.take 4)) ∧
    (∀ (resolve : Int → Int → Option PdfValue) (page : List (List Nat × PdfValue))
        (n g : Int) (es : List (List Nat × PdfValue)),
      dictFind page (pstr "/MediaBox") = none →
      dictFind page (pstr "/Parent") = some (.ref n g) →
      resolve n g = some (.dict es) → es ≠ [] →
      dictFind es (pstr "/MediaBox") = none →
      mediabox resolve true page = .ok [.int 0, .int 0, .int 612, .int 792]) := by
  constructor
  · intro resolve page n g es B h1 h2 h3 h4 h5
    have hB : B.isEmpty = false := by
      cases B with
      | nil => exact absurd rfl h5
      | cons a l => rfl
    have hes : es.isEmpty = false := by
      cases es with
      | nil => simp [dictFind] at h4
      | cons a l => rfl
    simp [mediabox, h1, h2, h3, h4, hes, hB, otruthy, truthy, pyGetAttrD,
      rectangle_object]
  · intro resolve page n g es h1 h2 h3 h4 h5
    have he : es.isEmpty = false := by
      cases es with
      | nil => exact absurd rfl h4
      | cons a l => rfl
    simp [mediabox, h1, h2, h3, h5, he, otruthy, truthy, pyGetAttrD]

/-- C6 witness: both conjuncts applied at concrete inputs — a direct
parent with `[0 0 200 300]` yields that box, and a direct parent without
one yields the US-Letter default even under `gpResolve` (where the
grandparent has a box). -/
theorem C6_mediabox_direct_parent_only_witness :
    mediabox dpResolve true gpPage =
      .ok [.int 0, .int 0, .int 200, .int 300] ∧
    mediabox gpResolve true gpPage = .ok [.int 0, .int 0, .int 612, .int 792] :=
  ⟨C6_mediabox_direct_parent_only.1 dpResolve gpPage 2 0 _ _ rfl rfl rfl rfl
      (List.cons_ne_nil _ _),
    C6_mediabox_direct_parent_only.2 gpResolve gpPage 2 0 _ rfl rfl rfl
      (List.cons_ne_nil _ _) rfl⟩

/-- C7: `decode_data` on a fresh Stream whose `/Filter` is `/FlateDecode`
or `/Fl` and whose raw payload every zlib model rejects (`inflate` returns
`none`, standing for `zlib.error`) returns the raw bytes unchanged — and
returns them as a non-error result, so no failure propagates. -/
theorem C7_flate_failure_returns_raw (inflate : List Nat → Option (List Nat))
    (es : List (List Nat × PdfValue)) (raw : List Nat) (f : List Nat)
    (h1 : dictFind es (pstr "/Filter") = some (.name f))
    (h2 : f = pstr "/FlateDecode" ∨ f = pstr "/Fl")
    (h3 : inflate raw = none) :
    decode_data inflate es raw none = .ok (raw, some raw) := by
  rcases h2 with rfl | rfl <;>
    simp [decode_data, h1, h3, otruthy, truthy]

/-- C7 witness: a concrete corrupt `/FlateDecode` stream decodes to its
raw bytes. -/
theorem C7_flate_failure_returns_raw_witness :
    decode_data inflate0 [(pstr "/Filter", .name (pstr "/FlateDecode"))]
      (pstr "junk") none = .ok (pstr "junk", some (pstr "junk")) :=
  C7_flate_failure_returns_raw inflate0 _ _ _ rfl (Or.inl rfl) rfl

theorem xlookup_xinsert_of_absent {xr : List (Int × Int × Int)} {k : Int}
    {v : Int × Int} {n : Int} {e : Int × Int}
    (hk : xlookup xr k = none) (hn : xlookup xr n = some e) :
    xlookup (xinsert xr k v) n = some e := by
  induction xr with
  | nil => simp [xlookup] at hn
  | cons a rest ih =>
    obtain ⟨m, o, g⟩ := a
    by_cases hmk : m = k
    · subst hmk
      simp [xlookup] at hk
    · by_cases hmn : m = n
      · subst hmn
        simp only [xlookup, xinsert, beq_iff_eq, if_neg hmk, if_pos rfl] at hn ⊢
        simpa [xlookup] using hn
      · simp only [xlookup, xinsert, beq_iff_eq, if_neg hmk, if_neg hmn] at hn hk ⊢
        exact ih hk hn

theorem isNone_xlookup {xr : List (Int × Int × Int)} {k : Int}
    (h : (xlookup xr k).isNone = true) : xlookup xr k = none := by
  cases hx : xlookup xr k with
  | none => rfl
  | some v => rw [hx] at h; simp at h

theorem xref_entries_preserves (m : Nat) :
    ∀ (data : List Nat) (idx : Nat) (start i : Int) (xr : List (Int × Int × Int))
      (n : Int) (e : Int × Int), xlookup xr n = some e →
      xlookup (xref_entries m data idx start i xr).2 n = some e := by
  induction m with
  | zero =>
    intro data idx start i xr n e hn
    simpa [xref_entries] using hn
  | succ m ih =>
    intro data idx start i xr n e hn
    simp only [xref_entries]
    apply ih
    split
    · split
      · split
        · next hcond =>
          have hk := isNone_xlookup (by
            have := hcond
            simp only [Bool.and_eq_true] at this
            exact this.2)
          exact xlookup_xinsert_of_absent hk hn
        · exact hn
      · exact hn
    · exact hn

theorem xref_table_loop_preserves (fuel : Nat) :
    ∀ (data : List Nat) (idx : Nat) (xr : List (Int × Int × Int)) (n : Int)
      (e : Int × Int), xlookup xr n = some e →
      xlookup (xref_table_loop fuel data idx xr).2 n = some e := by
  induction fuel with
  | zero =>
    intro data idx xr n e hn
    simpa [xref_table_loop] using hn
  | succ fuel ih =>
    intro data idx xr n e hn
    simp only [xref_table_loop]
    split
    · simpa using hn
    · split
      · simpa using hn
      · split
        · exact ih _ _ _ _ _ hn
        · split
          · split
            · exact ih _ _ _ _ _ (xref_entries_preserves _ _ _ _ _ _ _ _ hn)
            · exact ih _ _ _ _ _ hn
          · exact ih _ _ _ _ _ hn

theorem ebind_ok {α β : Type} (a : α) (f : α → Except PErr β) :
    (Except.ok a : Except PErr α) >>= f = f a := rfl

theorem ebind_err {α β : Type} (er : PErr) (f : α → Except PErr β) :
    (Except.error er : Except PErr α) >>= f = .error er := rfl

theorem resolver_keeps_xref (fuel : Nat) :
    (∀ data st v r, get_object fuel data st v = .ok r →
       r.2.xref = st.xref ∧ r.2.trailer = st.trailer) ∧
    (∀ data st off r, parse_indirect_object fuel data st off = .ok r →
       r.2.2.xref = st.xref ∧ r.2.2.trailer = st.trailer) ∧
    (∀ data st obj r, length_of fuel data st obj = .ok r →
       r.2.xref = st.xref ∧ r.2.trailer = st.trailer) := by
  induction fuel with
  | zero =>
    refine ⟨?_, ?_, ?_⟩
    · intro data st v r h
      simp [get_object] at h
    · intro data st off r h
      simp [parse_indirect_object] at h
    · intro data st obj r h
      simp [length_of] at h
  | succ fuel ih =>
    refine ⟨?_, ?_, ?_⟩
    · -- get_object
      intro data st v r h
      simp only [get_object] at h
      cases hE : obj_num_of v with
      | error e =>
        simp only [hE, ebind_err] at h
        exact Except.noConfusion h
      | ok objNum =>
        simp only [hE, ebind_ok] at h
        cases hc : olookup st.objects objNum with
        | some cached =>
          simp only [hc, Except.ok.injEq] at h
          subst h
          exact ⟨rfl, rfl⟩
        | none =>
          simp only [hc] at h
          cases hx : xlookup st.xref objNum with
          | none =>
            simp only [hx, Except.ok.injEq] at h
            subst h
            exact ⟨rfl, rfl⟩
          | some og =>
            obtain ⟨off, g⟩ := og
            simp only [hx] at h
            cases hp : parse_indirect_object fuel data st off with
            | error e =>
              simp only [hp, ebind_err] at h
              exact Except.noConfusion h
            | ok trip =>
              simp only [hp, ebind_ok, Except.ok.injEq] at h
              subst h
              have hs := (ih.2.1) data st off trip hp
              exact ⟨hs.1, hs.2⟩
    · -- parse_indirect_object
      intro data st off r h
      simp only [parse_indirect_object] at h
      cases hh : match_obj_header (pySliceFrom data off) with
      | none =>
        simp only [hh, Except.ok.injEq] at h
        subst h
        exact ⟨rfl, rfl⟩
      | some hd =>
        obtain ⟨a, b, hend⟩ := hd
        simp only [hh] at h
        cases ho : parse_object (pfuel (pySliceFrom data off)) (pySliceFrom data off) hend with
        | error e =>
          simp only [ho, ebind_err] at h
          exact Except.noConfusion h
        | ok pr =>
          obtain ⟨obj, idx⟩ := pr
          simp only [ho, ebind_ok] at h
          cases hk : match_stream_kw ((pySliceFrom data off).drop idx) with
          | none =>
            simp only [hk, Except.ok.injEq] at h
            subst h
            exact ⟨rfl, rfl⟩
          | some sk =>
            simp only [hk] at h
            cases hl : length_of fuel data st obj with
            | error e =>
              simp only [hl, ebind_err] at h
              exact Except.noConfusion h
            | ok ls =>
              simp only [hl, ebind_ok] at h
              cases obj
              case dict es =>
                simp only [Except.ok.injEq] at h
                subst h
                have hs := (ih.2.2) data st (.dict es) ls hl
                exact ⟨hs.1, hs.2⟩
              all_goals simp at h
    · -- length_of
      intro data st obj r h
      simp only [length_of] at h
      cases obj
      case dict es =>
        cases hd : dictFind es (pstr "/Length") with
        | none =>
          simp only [hd, Except.ok.injEq] at h
          subst h
          exact ⟨rfl, rfl⟩
        | some v =>
          simp only [hd] at h
          cases v
          case int n =>
            simp only [Except.ok.injEq] at h
            subst h
            exact ⟨rfl, rfl⟩
          case real q =>
            simp only [Except.ok.injEq] at h
            subst h
            exact ⟨rfl, rfl⟩
          case ref n g =>
            cases hg : get_object fuel data st (.ref n g) with
            | error e =>
              simp only [hg, ebind_err] at h
              exact Except.noConfusion h
            | ok pr =>
              obtain ⟨lref, st'⟩ := pr
              have hst' := (ih.1) data st (.ref n g) (lref, st') hg
              simp only [hg, ebind_ok] at h
              by_cases ht : otruthy lref
              · simp only [ht, if_true] at h
                cases hv : pyIntOfValueAttr (lref.getD .null) with
                | error e =>
                  simp only [hv, ebind_err] at h
                  exact Except.noConfusion h
                | ok v' =>
                  simp only [hv, ebind_ok, Except.ok.injEq] at h
                  subst h
                  exact ⟨hst'.1, hst'.2⟩
              · simp only [ht, if_false, Bool.false_eq_true, Except.ok.injEq] at h
                subst h
                exact ⟨hst'.1, hst'.2⟩
          all_goals
            simp only [Except.ok.injEq] at h
          all_goals
            (subst h; exact ⟨rfl, rfl⟩)
      all_goals
        simp only [Except.ok.injEq] at h
      all_goals
        (subst h; exact ⟨rfl, rfl⟩)

theorem xstream_rows_preserves (m : Nat) :
    ∀ (start i : Int) (w : List Int) (esz : Int) (data : List Nat) (di : Int)
      (xr : List (Int × Int × Int)) (n : Int) (e : Int × Int)
      (r : Int × List (Int × Int × Int)),
      xlookup xr n = some e → xstream_rows m start i w esz data di xr = .ok r →
      xlookup r.2 n = some e := by
  induction m with
  | zero =>
    intro start i w esz data di xr n e r hn h
    simp only [xstream_rows, Except.ok.injEq] at h
    subst h
    exact hn
  | succ m ih =>
    intro start i w esz data di xr n e r hn h
    simp only [xstream_rows] at h
    split at h
    · simp only [Except.ok.injEq] at h
      subst h
      exact hn
    · cases w with
      | nil => exact Except.noConfusion h
      | cons w0 wr =>
        simp only at h
        by_cases hcond : ((if w0 > 0 then (xsFields (w0 :: wr) data di).1.headD 0 else 1) == 1
            && (xlookup xr (start + i)).isNone) = true
        · rw [if_pos hcond] at h
          have hnone := isNone_xlookup ((Bool.and_eq_true _ _).mp hcond).2
          cases hf : (xsFields (w0 :: wr) data di).1 with
          | nil =>
            rw [hf] at h
            exact Except.noConfusion h
          | cons f0 rest1 =>
            cases rest1 with
            | nil =>
              rw [hf] at h
              exact Except.noConfusion h
            | cons f1 rest2 =>
              rw [hf] at h
              exact ih _ _ _ _ _ _ _ _ _ _ (xlookup_xinsert_of_absent hnone hn) h
        · rw [if_neg hcond] at h
          exact ih _ _ _ _ _ _ _ _ _ _ hn h

theorem xstream_subs_preserves :
    ∀ (subs : List (Int × Int)) (w : List Int) (esz : Int) (data : List Nat)
      (di : Int) (xr : List (Int × Int × Int)) (n : Int) (e : Int × Int)
      (r : Int × List (Int × Int × Int)),
      xlookup xr n = some e → xstream_subs subs w esz data di xr = .ok r →
      xlookup r.2 n = some e := by
  intro subs
  induction subs with
  | nil =>
    intro w esz data di xr n e r hn h
    simp only [xstream_subs, Except.ok.injEq] at h
    subst h
    exact hn
  | cons sc rest ih =>
    intro w esz data di xr n e r hn h
    obtain ⟨start, count⟩ := sc
    simp only [xstream_subs] at h
    cases hr : xstream_rows count.toNat start 0 w esz data di xr with
    | error e2 =>
      simp only [hr, ebind_err] at h
      exact Except.noConfusion h
    | ok p =>
      simp only [hr, ebind_ok] at h
      exact ih _ _ _ _ _ _ _ _
        (xstream_rows_preserves _ _ _ _ _ _ _ _ _ _ _ hn hr) h

theorem parse_xref_preserves (fuel : Nat) :
    (∀ (inflate : List Nat → Option (List Nat)) (data : List Nat) (st : RState)
       (off : Int) (st' : RState) (n : Int) (e : Int × Int),
       xlookup st.xref n = some e → parse_xref fuel inflate data st off = .ok st' →
       xlookup st'.xref n = some e) ∧
    (∀ (inflate : List Nat → Option (List Nat)) (data : List Nat) (st : RState)
       (off : Int) (st' : RState) (n : Int) (e : Int × Int),
       xlookup st.xref n = some e →
       parse_xref_table fuel inflate data st off = .ok st' →
       xlookup st'.xref n = some e) ∧
    (∀ (inflate : List Nat → Option (List Nat)) (data : List Nat) (st : RState)
       (off : Int) (st' : RState) (n : Int) (e : Int × Int),
       xlookup st.xref n = some e →
       parse_xref_stream fuel inflate data st off = .ok st' →
       xlookup st'.xref n = some e) := by
  induction fuel with
  | zero =>
    refine ⟨?_, ?_, ?_⟩ <;>
      (intro inflate data st off st' n e hn h
       exact Except.noConfusion h)
  | succ fuel ih =>
    refine ⟨?_, ?_, ?_⟩
    · -- parse_xref dispatch
      intro inflate data st off st' n e hn h
      simp only [parse_xref] at h
      split at h
      · exact ih.2.1 _ _ _ _ _ _ _ hn h
      · exact ih.2.2 _ _ _ _ _ _ _ hn h
    · -- parse_xref_table
      intro inflate data st off st' n e hn h
      simp only [parse_xref_table] at h
      have hloop := xref_table_loop_preserves
        ((pySliceFrom data off).length + 2) (pySliceFrom data off)
        (((pyFind (pySliceFrom data off) 10 4).map (· + 1)).getD 0) st.xref n e hn
      cases hs : search_trailer (pySliceFrom (pySliceFrom data off)
          (((xref_table_loop ((pySliceFrom data off).length + 2) (pySliceFrom data off)
            (((pyFind (pySliceFrom data off) 10 4).map (· + 1)).getD 0) st.xref).1 : Int)
            - 100)) with
      | none =>
        simp only [hs, Except.ok.injEq] at h
        subst h
        exact hloop
      | some grp =>
        simp only [hs] at h
        cases hp : parse_object (pfuel (pstr "<<" ++ grp ++ pstr ">>"))
            (pstr "<<" ++ grp ++ pstr ">>") 0 with
        | error e2 =>
          simp only [hp, ebind_err] at h
          exact Except.noConfusion h
        | ok pr =>
          obtain ⟨tr, rest⟩ := pr
          simp only [hp, ebind_ok] at h
          by_cases htr : truthy tr
          · simp only [htr, if_true] at h
            cases hpv : pyGetAttrD tr (pstr "/Prev") with
            | error e2 =>
              simp only [hpv, ebind_err] at h
              exact Except.noConfusion h
            | ok prev? =>
              simp only [hpv, ebind_ok] at h
              cases prev? with
              | none =>
                simp only [Except.ok.injEq] at h
                subst h
                exact hloop
              | some prev =>
                by_cases hpt : truthy prev
                · simp only [hpt, if_true] at h
                  cases hio : pyIntOfValueAttr prev with
                  | error e2 =>
                    simp only [hio, ebind_err] at h
                    exact Except.noConfusion h
                  | ok pOff =>
                    simp only [hio, ebind_ok] at h
                    exact ih.1 _ _ _ _ _ _ _ hloop h
                · simp only [hpt, Bool.false_eq_true, if_false, Except.ok.injEq] at h
                  subst h
                  exact hloop
          · simp only [htr, Bool.false_eq_true, if_false, Except.ok.injEq] at h
            subst h
            exact hloop
    · -- parse_xref_stream
      intro inflate data st off st' n e hn h
      simp only [parse_xref_stream] at h
      cases hpi : parse_indirect_object (fuel + 1) data st off with
      | error e2 =>
        simp only [hpi, ebind_err] at h
        exact Except.noConfusion h
      | ok trip =>
        obtain ⟨obj?, cur, st1⟩ := trip
        have hst1 : st1.xref = st.xref :=
          ((resolver_keeps_xref (fuel + 1)).2.1 _ _ _ _ hpi).1
        simp only [hpi, ebind_ok] at h
        cases obj? with
        | none => exact Except.noConfusion h
        | some v =>
          cases v
          case stream es raw dec =>
            simp only at h
            cases hdd : decode_data inflate es raw dec with
            | error e2 =>
              simp only [hdd, ebind_err] at h
              exact Except.noConfusion h
            | ok dd =>
              simp only [hdd, ebind_ok] at h
              cases hw : w_of es with
              | error e2 =>
                simp only [hw, ebind_err] at h
                exact Except.noConfusion h
              | ok w =>
                simp only [hw, ebind_ok] at h
                cases hsz : size_of es with
                | error e2 =>
                  simp only [hsz, ebind_err] at h
                  exact Except.noConfusion h
                | ok size =>
                  simp only [hsz, ebind_ok] at h
                  cases hix : index_subsections es size with
                  | error e2 =>
                    simp only [hix, ebind_err] at h
                    exact Except.noConfusion h
                  | ok subs =>
                    simp only [hix, ebind_ok] at h
                    cases hq : xstream_subs subs w (w.foldl (· + ·) 0) dd.1 0
                        st1.xref with
                    | error e2 =>
                      simp only [hq, ebind_err] at h
                      exact Except.noConfusion h
                    | ok q =>
                      have hq2 : xlookup q.2 n = some e :=
                        xstream_subs_preserves _ _ _ _ _ _ _ _ _
                          (by rw [hst1]; exact hn) hq
                      simp only [hq, ebind_ok] at h
                      cases hpv : pyGetAttrD (.stream es raw dec) (pstr "/Prev") with
                      | error e2 =>
                        simp only [hpv, ebind_err] at h
                        exact Except.noConfusion h
                      | ok prev? =>
                        simp only [hpv, ebind_ok] at h
                        cases prev? with
                        | none =>
                          simp only [Except.ok.injEq] at h
                          subst h
                          exact hq2
                        | some prev =>
                          by_cases hpt : truthy prev
                          · simp only [hpt, if_true] at h
                            cases hio : pyIntOfValueAttr prev with
                            | error e2 =>
                              simp only [hio, ebind_err] at h
                              exact Except.noConfusion h
                            | ok pOff =>
                              simp only [hio, ebind_ok] at h
                              exact ih.1 _ _ _ _ _ _ _ hq2 h
                          · simp only [hpt, Bool.false_eq_true, if_false,
                              Except.ok.injEq] at h
                            subst h
                            exact hq2
          all_goals exact Except.noConfusion h

/-- C3: a binding already present in the xref map is never overwritten by a
later-processed (older) section: the classic-table branch and the
xref-stream branch each insert an entry only when the object number is
absent (`obj_num not in self._xref`), and the property is preserved
through the whole backward `/Prev` traversal — so the newest
(first-processed) binding of N to offset A survives, in both branches and
under the dispatching `_parse_xref`. -/
theorem C3_xref_first_writer_wins
    (fuel : Nat) (inflate : List Nat → Option (List Nat)) (data : List Nat)
    (st : RState) (off : Int) (st' : RState) (n : Int) (e : Int × Int)
    (hn : xlookup st.xref n = some e) :
    (parse_xref fuel inflate data st off = .ok st' →
      xlookup st'.xref n = some e) ∧
    (parse_xref_table fuel inflate data st off = .ok st' →
      xlookup st'.xref n = some e) ∧
    (parse_xref_stream fuel inflate data st off = .ok st' →
      xlookup st'.xref n = some e) :=
  ⟨fun h => (parse_xref_preserves fuel).1 _ _ _ _ _ _ _ hn h,
   fun h => (parse_xref_preserves fuel).2.1 _ _ _ _ _ _ _ hn h,
   fun h => (parse_xref_preserves fuel).2.2 _ _ _ _ _ _ _ hn h⟩

/-- C3 witness: processing the older `/Prev` section of `docA` leaves the
existing binding of object 1 at offset 9 untouched even though that
section lists offset 111 for it. -/
theorem C3_xref_first_writer_wins_witness :
    parse_xref 10 inflate0 docA ⟨[(1, 9, 0)], [], none⟩ 45 = .ok c3Old ∧
    xlookup c3Old.xref 1 = some (9, 0) :=
  ⟨rfl,
    (C3_xref_first_writer_wins 10 inflate0 docA ⟨[(1, 9, 0)], [], none⟩ 45
      c3Old 1 (9, 0) rfl).1 rfl⟩

/-- C8 counterexample: in `docA` the claim's merged trailer (newer
precedence) contains `/Encrypt` — it appears in the newest,
startxref-pointed trailer — yet after opening, `is_encrypted` is FALSE:
each `/Prev` recursion overwrites `self._trailer`, so the flag is computed
from the OLDEST trailer, not from a merge. -/
theorem C8_encrypt_in_merged_trailer_ignored :
    search_startxref (pySliceFrom docA (-1024)) = some 188 ∧
    merged_encrypt 10 docA 188 = some true ∧
    (pdf_reader_init inflate0 50 docA).map (fun d => d.is_encrypted) =
      .ok false :=
  ⟨rfl, rfl, rfl⟩

/-- C8 amended: `is_encrypted` is computed from the trailer stored at the
END of the chain walk — the last-processed (oldest) section's trailer,
since each `/Prev` recursion overwrites `self._trailer` — not from a
merged trailer: the flag equals the `/Encrypt`-truthiness check of the
final stored trailer for every successfully opened document, it is FALSE
for `docA` (where only the NEWEST trailer has `/Encrypt`), and TRUE for
`docB` (where only the OLDEST trailer has it). -/
theorem C8_encrypt_from_final_stored_trailer :
    (∀ (inflate : List Nat → Option (List Nat)) (fuel : Nat) (data : List Nat)
       (doc : PdfDoc), pdf_reader_init inflate fuel data = .ok doc →
       encrypt_flag doc.st.trailer = .ok doc.is_encrypted) ∧
    (pdf_reader_init inflate0 50 docA).map (fun d => d.is_encrypted) =
      .ok false ∧
    (pdf_reader_init inflate0 50 docB).map (fun d => d.is_encrypted) =
      .ok true := by
  refine ⟨?_, rfl, rfl⟩
  intro inflate fuel data doc h
  simp only [pdf_reader_init] at h
  by_cases hd : data.isEmpty = true
  · rw [if_pos hd] at h
    exact Except.noConfusion h
  · rw [if_neg hd] at h
    cases hs : search_startxref (pySliceFrom data (-1024)) with
    | none =>
      rw [hs] at h
      exact Except.noConfusion h
    | some sx =>
      simp only [hs] at h
      cases hp : parse_xref fuel inflate data ⟨[], [], none⟩ sx with
      | error e =>
        simp only [hp, ebind_err] at h
        exact Except.noConfusion h
      | ok st =>
        simp only [hp, ebind_ok] at h
        cases he : encrypt_flag st.trailer with
        | error e =>
          simp only [he, ebind_err] at h
          exact Except.noConfusion h
        | ok enc =>
          simp only [he, ebind_ok, Except.ok.injEq] at h
          subst h
          exact he

/-- C8 witness: the general conjunct applied to the concrete `docB`. -/
theorem C8_encrypt_from_final_stored_trailer_witness :
    encrypt_flag docBDoc.st.trailer = .ok docBDoc.is_encrypted :=
  C8_encrypt_from_final_stored_trailer.1 inflate0 50 docB docBDoc rfl

theorem olookup_oinsert_self (os : List (Int × Option PdfValue)) (k : Int)
    (v : Option PdfValue) : olookup (oinsert os k v) k = some v := by
  induction os with
  | nil => simp [oinsert, olookup]
  | cons a rest ih =>
    obtain ⟨m, w⟩ := a
    by_cases hm : m = k
    · subst hm
      simp [oinsert, olookup]
    · simp only [oinsert, olookup, beq_iff_eq, if_neg hm]
      exact ih

/-- C9: memoised resolution. For an object number present in the xref map
and not yet cached, a successful first `get_object` call stores its result
in the cache, and EVERY later call — with any fuel and even with a
completely different byte buffer, so provably without re-parsing — returns
the same value and leaves the state unchanged. -/
theorem C9_get_object_memoised
    (data : List Nat) (fuel : Nat) (st : RState) (n g : Int)
    (r : Option PdfValue) (st1 : RState)
    (hx : (xlookup st.xref n).isSome = true)
    (hc : olookup st.objects n = none)
    (h : get_object fuel data st (.ref n g) = .ok (r, st1)) :
    olookup st1.objects n = some r ∧
    (∀ (data2 : List Nat) (fuel2 : Nat) (g2 : Int),
      get_object data2.length.succ data2 st1 (.ref n g2) = .ok (r, st1) ∧
      get_object (fuel2 + 1) data2 st1 (.ref n g2) = .ok (r, st1)) := by
  cases fuel with
  | zero =>
    exact Except.noConfusion h
  | succ fuel =>
    simp only [get_object, obj_num_of, ebind_ok] at h
    rw [hc] at h
    cases hxv : xlookup st.xref n with
    | none => rw [hxv] at hx; simp at hx
    | some og =>
      simp only [hxv] at h
      cases hp : parse_indirect_object fuel data st og.1 with
      | error e =>
        simp only [hp, ebind_err] at h
        exact Except.noConfusion h
      | ok trip =>
        simp only [hp, ebind_ok, Except.ok.injEq, Prod.mk.injEq] at h
        obtain ⟨hr, hst1⟩ := h
        subst hst1
        subst hr
        have hmem : olookup (RState.mk trip.2.2.xref
            (oinsert trip.2.2.objects n trip.1) trip.2.2.trailer).objects n =
            some trip.1 := olookup_oinsert_self _ _ _
        refine ⟨hmem, ?_⟩
        intro data2 fuel2 g2
        constructor
        · simp only [get_object, obj_num_of, ebind_ok]
          rw [hmem]
        · simp only [get_object, obj_num_of, ebind_ok]
          rw [hmem]

set_option maxHeartbeats 1000000 in
/-- C9 witness: resolving object 1 of `helloPdf` memoises the result, and
repeat calls — here with an EMPTY byte buffer and a different generation —
return the same value and state. -/
theorem C9_get_object_memoised_witness :
    olookup (c9run.2).objects 1 = some c9run.1 ∧
    get_object 8 [] c9run.2 (.ref 1 5) = .ok (c9run.1, c9run.2) :=
  have happ := C9_get_object_memoised helloPdf 40 helloDoc.st 1 0 c9run.1 c9run.2
    rfl rfl rfl
  ⟨happ.1, (happ.2 [] 7 5).2⟩

theorem emap_ok {α β : Type} (a : α) (f : α → β) :
    (Except.ok a : Except PErr α).map f = .ok (f a) := rfl

theorem emap_err {α β : Type} (e : PErr) (f : α → β) :
    (Except.error e : Except PErr α).map f = .error e := rfl

theorem xlookup_genMap (f : Int → Int) :
    ∀ (xr : List (Int × Int × Int)) (n : Int),
      xlookup (xr.map (fun e => (e.1, e.2.1, f e.2.2))) n =
        (xlookup xr n).map (fun p => (p.1, f p.2)) := by
  intro xr
  induction xr with
  | nil => intro n; rfl
  | cons a rest ih =>
    intro n
    obtain ⟨m, o, g⟩ := a
    by_cases hm : m = n
    · subst hm
      simp [xlookup]
    · simp only [List.map_cons, xlookup, beq_iff_eq, if_neg hm]
      exact ih n

theorem xlookup_genMapR (f : Int → Int) (st : RState) (n : Int) :
    xlookup (genMap f st).xref n =
      (xlookup st.xref n).map (fun p => (p.1, f p.2)) :=
  xlookup_genMap f st.xref n

theorem resolver_gen_independent (fuel : Nat) (f : Int → Int) :
    (∀ data st v, get_object fuel data (genMap f st) v =
       (get_object fuel data st v).map (fun p => (p.1, genMap f p.2))) ∧
    (∀ data st off, parse_indirect_object fuel data (genMap f st) off =
       (parse_indirect_object fuel data st off).map
         (fun t => (t.1, t.2.1, genMap f t.2.2))) ∧
    (∀ data st obj, length_of fuel data (genMap f st) obj =
       (length_of fuel data st obj).map (fun p => (p.1, genMap f p.2))) := by
  induction fuel with
  | zero => exact ⟨fun _ _ _ => rfl, fun _ _ _ => rfl, fun _ _ _ => rfl⟩
  | succ fuel ih =>
    refine ⟨?_, ?_, ?_⟩
    · -- get_object
      intro data st v
      simp only [get_object]
      cases hE : obj_num_of v with
      | error e => simp only [hE, ebind_err, emap_err]
      | ok objNum =>
        simp only [hE, ebind_ok]
        cases hc : olookup st.objects objNum with
        | some cached =>
          have hc2 : olookup (genMap f st).objects objNum = some cached := hc
          simp only [hc, hc2, emap_ok]
        | none =>
          have hc2 : olookup (genMap f st).objects objNum = none := hc
          simp only [hc, hc2, xlookup_genMapR]
          cases hx : xlookup st.xref objNum with
          | none => rfl
          | some og =>
            simp only [Option.map_some']
            rw [ih.2.1 data st og.1]
            cases hp : parse_indirect_object fuel data st og.1 with
            | error e => rfl
            | ok trip => rfl
    · -- parse_indirect_object
      intro data st off
      simp only [parse_indirect_object]
      cases hh : match_obj_header (pySliceFrom data off) with
      | none => simp only [hh, emap_ok]
      | some hd =>
        obtain ⟨a, b, hend⟩ := hd
        simp only [hh]
        cases ho : parse_object (pfuel (pySliceFrom data off)) (pySliceFrom data off) hend with
        | error e => simp only [ho, ebind_err, emap_err]
        | ok pr =>
          obtain ⟨obj, idx⟩ := pr
          simp only [ho, ebind_ok]
          cases hk : match_stream_kw ((pySliceFrom data off).drop idx) with
          | none => simp only [hk, emap_ok]
          | some sk =>
            simp only [hk]
            rw [ih.2.2 data st obj]
            cases hl : length_of fuel data st obj with
            | error e => rfl
            | ok ls =>
              cases obj
              all_goals rfl
    · -- length_of
      intro data st obj
      simp only [length_of]
      cases obj
      case dict es =>
        cases hd : dictFind es (pstr "/Length") with
        | none => simp only [hd, emap_ok]
        | some v =>
          simp only [hd]
          cases v
          case int n => simp only [emap_ok]
          case real q => simp only [emap_ok]
          case ref n g =>
            dsimp only
            rw [ih.1 data st (.ref n g)]
            cases hg : get_object fuel data st (.ref n g) with
            | error e => rfl
            | ok pr =>
              simp only [emap_ok, ebind_ok]
              by_cases ht : otruthy pr.1 = true
              · simp only [ht, if_true]
                cases hv : pyIntOfValueAttr (pr.1.getD .null) with
                | error e => simp only [hv, ebind_err, emap_err]
                | ok v2 => simp only [hv, ebind_ok, emap_ok]
              · simp only [ht, Bool.false_eq_true, if_false, emap_ok]
          all_goals simp only [emap_ok]
      all_goals simp only [emap_ok]

/-- C10: indirect-object resolution depends only on the object number:
(1) resolving `IndirectReference(n, g1)` and `IndirectReference(n, g2)`
from any state gives identical results (value AND final state) for any two
generations, and (2) the generations stored in the xref entries are never
consulted: rewriting every stored generation by an arbitrary function
changes nothing about the returned object or the cache. -/
theorem C10_resolution_ignores_generation :
    (∀ (fuel : Nat) (data : List Nat) (st : RState) (n g1 g2 : Int),
      get_object fuel data st (.ref n g1) = get_object fuel data st (.ref n g2)) ∧
    (∀ (f : Int → Int) (fuel : Nat) (data : List Nat) (st : RState) (v : PdfValue),
      get_object fuel data (genMap f st) v =
        (get_object fuel data st v).map (fun p => (p.1, genMap f p.2))) := by
  constructor
  · intro fuel data st n g1 g2
    cases fuel with
    | zero => rfl
    | succ fuel => rfl
  · intro f fuel data st v
    exact (resolver_gen_independent fuel f).1 data st v

end MyPdf

